import Mathlib

/-!
Shallow embedding of the `medicalcalculator` backend
(`app/models.py`, `app/schemas.py`, `app/services/*.py`,
`app/api/endpoints/sdai.py`, `app/api/dependencies.py`).

Conventions of the embedding:
* The relational store is a pure `DB` value; SQLAlchemy queries become
  `List` filters/finds over it.  Row ids are handed out from `next…Id`
  counters, timestamps come from the clock field `now : Int` (dates and
  datetimes are modelled as integers, only their order matters).
* Python `float` columns are modelled as `Rat`; the SDAI arithmetic of
  `SDAIRecord.calculate_sdai` is exact in the source's formula.
* Fallible service calls (Python `raise ValueError`) return `Except`;
  an `Except.error` models an exception before `db.commit()`, i.e. the
  store is left unchanged (rollback).
* Passwords are modelled as lists of Unicode code points (`List Nat`);
  `str.encode("utf-8")` byte counting is via `utf8Len`.
* passlib's `CryptContext` (schemes `pbkdf2_sha256` + legacy `bcrypt`)
  is modelled symbolically: hashes are strings in one of the two scheme
  formats embedding the hashed password; `CryptContext.verify` raises
  `UnknownHashError` when the stored hash matches no configured scheme
  (documented passlib behaviour), modelled as `Except.error`.
-/

deriving instance DecidableEq for Except

namespace MedCalc

/-- HTTP-level failure raised by an endpoint (`fastapi.HTTPException`). -/
structure HTTPException where
  status : Nat
  detail : String
  deriving DecidableEq, Repr

/-- Python `ValueError` raised by the domain services; the endpoints map
these to HTTP 400.  One constructor per distinct message in the source. -/
inductive SvcError where
  | patientNotFoundOrInactive
  | medicCannotBePatient
  | emailTaken
  | usernameTaken
  | doctorNotFoundOrInactive
  | patientNotFoundInactiveOrMedical
  | pairAlreadyLinked
  deriving DecidableEq, Repr

/-- A Python exception crossing the record-service boundary: either a
`ValueError` (caught by the endpoints and mapped to HTTP 400) or the
`TypeError` raised by passing the same keyword argument twice
(uncaught by the endpoints). -/
inductive PyError where
  | valueError (e : SvcError)
  | typeErrorMultipleValues (kw : String)
  deriving DecidableEq, Repr

/-- Errors raised by passlib's `CryptContext.verify`. -/
inductive PasslibError where
  | unknownHash
  deriving DecidableEq, Repr

/-- `app/models.py` `User` row.  `full_name` is a nullable column. -/
structure User where
  id : Nat
  email : String
  username : String
  full_name : Option String
  hashed_password : String
  is_active : Bool
  is_superuser : Bool
  is_medical : Bool
  created_at : Int
  updated_at : Option Int
  deriving DecidableEq, Repr

/-- `app/models.py` `DoctorPatient` row (clinician–patient link). -/
structure DoctorPatient where
  id : Nat
  doctor_id : Nat
  patient_id : Nat
  created_at : Int
  deriving DecidableEq, Repr

/-- `app/models.py` `SDAIRecord` row. -/
structure SDAIRecord where
  id : Nat
  patient_id : Nat
  doctor_id : Nat
  tender_joint_count : Int
  swollen_joint_count : Int
  doctor_activity_assessment : Rat
  patient_activity_assessment : Rat
  crp : Rat
  sdai_score : Rat
  measurement_date : Int
  created_at : Int
  updated_at : Option Int
  notes : Option String
  deriving DecidableEq, Repr

/-- `SDAIRecord.calculate_sdai` from `app/models.py`. -/
def SDAIRecord.calculate_sdai (r : SDAIRecord) : Rat :=
  (r.tender_joint_count : Rat) +
  (r.swollen_joint_count : Rat) +
  (r.doctor_activity_assessment / 10) +
  (r.patient_activity_assessment / 10) +
  (r.crp * 10)

/-- The whole relational store plus id counters and the clock. -/
structure DB where
  users : List User
  links : List DoctorPatient
  records : List SDAIRecord
  nextUserId : Nat
  nextLinkId : Nat
  nextRecordId : Nat
  now : Int
  deriving DecidableEq, Repr

/-- The store an `Except`-returning operation leaves behind: the new one
on success, the input store on an exception (rollback before commit). -/
def DB.after {ε α : Type} (db : DB) : Except ε (DB × α) → DB
  | .ok (db', _) => db'
  | .error _ => db

/-! ### UTF-8 byte counting and password truncation (`app/schemas.py`) -/

/-- Number of bytes of the UTF-8 encoding of one code point. -/
def utf8Len (c : Nat) : Nat :=
  if c < 0x80 then 1 else if c < 0x800 then 2 else if c < 0x10000 then 3 else 4

/-- `len(s.encode("utf-8"))` for a string given as its code points. -/
def utf8ByteLength (cps : List Nat) : Nat :=
  (cps.map utf8Len).sum

/-- Longest code-point head of the string whose UTF-8 encoding fits in
`budget` bytes.  For a valid string this is exactly
`s.encode("utf-8")[:budget].decode("utf-8", "ignore")`: the byte slice
cuts the stream at byte `budget`, and the `ignore` handler drops the
trailing incomplete code-point sequence, leaving the decoded head. -/
def takeUtf8Bytes (budget : Nat) : List Nat → List Nat
  | [] => []
  | c :: cs =>
      if utf8Len c ≤ budget then c :: takeUtf8Bytes (budget - utf8Len c) cs
      else []

/-- `UserCreate.validate_password_length` from `app/schemas.py`: truncate
to the first 72 UTF-8 bytes when the encoding is longer than 72 bytes. -/
def validate_password_length (v : List Nat) : List Nat :=
  if 72 < utf8ByteLength v then takeUtf8Bytes 72 v else v

/-- `app/schemas.py` `UserCreate` (after pydantic validation). -/
structure UserCreate where
  email : String
  username : String
  full_name : Option String
  password : List Nat
  is_medical : Bool
  deriving DecidableEq, Repr

/-- Parsing a registration body into a `UserCreate`: the
`min_length=6` field constraint on `password` runs first, then the
`validate_password_length` validator rewrites the field.  (The other
field constraints — email shape, username length — are request-shape
glue not involved in any claim and are not modelled.) -/
def UserCreate.ofRequest (email username : String) (full_name : Option String)
    (password : List Nat) (is_medical : Bool) : Option UserCreate :=
  if password.length < 6 then none
  else some ⟨email, username, full_name, validate_password_length password, is_medical⟩

/-- `app/schemas.py` `SDAIRecordCreate` (via `SDAIRecordBase`). -/
structure SDAIRecordCreate where
  patient_id : Nat
  tender_joint_count : Int
  swollen_joint_count : Int
  doctor_activity_assessment : Rat
  patient_activity_assessment : Rat
  crp : Rat
  measurement_date : Int
  notes : Option String
  deriving DecidableEq, Repr

/-- `app/schemas.py` `SDAIRecordUpdate`: every field optional; `none`
models a field absent from the request body (pydantic
`dict(exclude_unset=True)` drops it). -/
structure SDAIRecordUpdate where
  tender_joint_count : Option Int := none
  swollen_joint_count : Option Int := none
  doctor_activity_assessment : Option Rat := none
  patient_activity_assessment : Option Rat := none
  crp : Option Rat := none
  measurement_date : Option Int := none
  notes : Option String := none
  deriving DecidableEq, Repr

/-- `app/schemas.py` `DoctorPatientCreate`. -/
structure DoctorPatientCreate where
  patient_id : Nat
  deriving DecidableEq, Repr

/-! ### passlib `CryptContext` model (`pwd_context` in `auth_service.py`) -/

/-- The two configured hash schemes. -/
inductive HashScheme where
  | pbkdf2_sha256
  | bcrypt
  deriving DecidableEq, Repr

def pbkdf2Tag : String := "$pbkdf2-sha256$30000$"

def bcryptTag : String := "$2b$12$"

/-- Symbolic digest of a password (stands in for the one-way digest;
equality of digests models equality of passwords). -/
def pwDigest (pw : List Nat) : String :=
  String.intercalate "-" (pw.map toString)

/-- `tag.isPrefixOf s` on the underlying character lists (the
`str.startsWith` format-tag test, written structurally). -/
def charsMatchTag : List Char → List Char → Bool
  | [], _ => true
  | _ :: _, [] => false
  | t :: ts, c :: cs => t == c && charsMatchTag ts cs

/-- Whether the string carries the given leading format tag. -/
def strMatchesTag (tag s : String) : Bool :=
  charsMatchTag tag.toList s.toList

/-- `CryptContext.identify`: which configured scheme a stored hash
belongs to, by its format tag; `none` for a malformed hash. -/
def identifyHash (h : String) : Option HashScheme :=
  if strMatchesTag "$pbkdf2-sha256$" h then some .pbkdf2_sha256
  else if strMatchesTag "$2b$" h || strMatchesTag "$2a$" h then some .bcrypt
  else none

/-- `pwd_context.hash`: new hashes use the default scheme
`pbkdf2_sha256` with 30000 rounds. -/
def pwd_context_hash (pw : List Nat) : String :=
  pbkdf2Tag ++ pwDigest pw

/-- `pwd_context.verify`: raises `UnknownHashError` when the stored hash
matches no configured scheme, else compares digests. -/
def pwd_context_verify (plain : List Nat) (h : String) :
    Except PasslibError Bool :=
  match identifyHash h with
  | none => .error .unknownHash
  | some .pbkdf2_sha256 => .ok (h == pbkdf2Tag ++ pwDigest plain)
  | some .bcrypt => .ok (h == bcryptTag ++ pwDigest plain)

/-! ### `app/services/auth_service.py` -/

namespace AuthService

/-- `AuthService.verify_password`: a direct delegation to
`pwd_context.verify`, with no exception handling of its own. -/
def verify_password (plain_password : List Nat) (hashed_password : String) :
    Except PasslibError Bool :=
  pwd_context_verify plain_password hashed_password

/-- `AuthService.get_password_hash`. -/
def get_password_hash (password : List Nat) : String :=
  pwd_context_hash password

/-- `AuthService.get_user_by_email`. -/
def get_user_by_email (db : DB) (email : String) : Option User :=
  db.users.find? (fun u => u.email == email)

/-- `AuthService.get_user_by_username`. -/
def get_user_by_username (db : DB) (username : String) : Option User :=
  db.users.find? (fun u => u.username == username)

/-- `AuthService.create_user`: duplicate-email then duplicate-username
check, hash the password, insert the row.  The constructor call passes
`is_active=True` and `is_superuser=False` explicitly and does not pass
`is_medical`, so that column takes its model default `False`. -/
def create_user (db : DB) (user_data : UserCreate) :
    Except SvcError (DB × User) :=
  match get_user_by_email db user_data.email with
  | some _ => .error .emailTaken
  | none =>
    match get_user_by_username db user_data.username with
    | some _ => .error .usernameTaken
    | none =>
      let hashed := get_password_hash user_data.password
      let db_user : User :=
        { id := db.nextUserId
          email := user_data.email
          username := user_data.username
          full_name := user_data.full_name
          hashed_password := hashed
          is_active := true
          is_superuser := false
          is_medical := false      -- column default: not passed by the source
          created_at := db.now
          updated_at := none }
      .ok ({ db with users := db.users ++ [db_user],
                     nextUserId := db.nextUserId + 1 }, db_user)

end AuthService

/-! ### `app/services/sdai_service.py` -/

namespace SDAIService

/-- `SDAIService.get_record`. -/
def get_record (db : DB) (record_id : Nat) : Option SDAIRecord :=
  db.records.find? (fun r => r.id == record_id)

/-- `SDAIService.create_record`: patient must exist and be active, and
must not be medical; then the row construction
`SDAIRecord(**record_data.dict(), doctor_id=doctor_id,
measurement_date=record_data.measurement_date)` runs — but
`record_data.dict()` already contains `measurement_date` (a declared
field of `SDAIRecordBase`), so this call itself raises
`TypeError: got multiple values for keyword argument
'measurement_date'` on every invocation.  The score computation, the
insert and the commit below it are unreachable: no record is ever
stored through this path. -/
def create_record (db : DB) (record_data : SDAIRecordCreate)
    (doctor_id : Nat) : Except PyError (DB × SDAIRecord) :=
  match db.users.find? (fun u => u.id == record_data.patient_id && u.is_active) with
  | none => .error (.valueError .patientNotFoundOrInactive)
  | some patient =>
    if patient.is_medical then .error (.valueError .medicCannotBePatient)
    else .error (.typeErrorMultipleValues "measurement_date")

/-- `SDAIService.update_record`: `None` when the record is absent; else
set each field present in the body, recompute `sdai_score`
unconditionally, bump `updated_at`. -/
def update_record (db : DB) (record_id : Nat)
    (record_data : SDAIRecordUpdate) : Option (DB × SDAIRecord) :=
  match get_record db record_id with
  | none => none
  | some record =>
    let merged : SDAIRecord :=
      { record with
        tender_joint_count :=
          record_data.tender_joint_count.getD record.tender_joint_count
        swollen_joint_count :=
          record_data.swollen_joint_count.getD record.swollen_joint_count
        doctor_activity_assessment :=
          record_data.doctor_activity_assessment.getD record.doctor_activity_assessment
        patient_activity_assessment :=
          record_data.patient_activity_assessment.getD record.patient_activity_assessment
        crp := record_data.crp.getD record.crp
        measurement_date :=
          record_data.measurement_date.getD record.measurement_date
        notes :=
          match record_data.notes with
          | some n => some n
          | none => record.notes }
    let rescored := { merged with sdai_score := merged.calculate_sdai }
    let final := { rescored with updated_at := some db.now }
    some ({ db with records :=
              db.records.map (fun r => if r.id == record_id then final else r) },
          final)

/-- `SDAIService.delete_record`. -/
def delete_record (db : DB) (record_id : Nat) : DB × Bool :=
  match get_record db record_id with
  | none => (db, false)
  | some _ =>
      ({ db with records := db.records.filter (fun r => r.id != record_id) }, true)

/-- Descending order on `measurement_date` (`order_by(desc(...))`). -/
def sortByMeasurementDateDesc (rs : List SDAIRecord) : List SDAIRecord :=
  rs.mergeSort (fun a b => decide (b.measurement_date ≤ a.measurement_date))

/-- Descending order on `created_at`. -/
def sortByCreatedAtDesc (rs : List SDAIRecord) : List SDAIRecord :=
  rs.mergeSort (fun a b => decide (b.created_at ≤ a.created_at))

/-- `SDAIService.get_patient_records`. -/
def get_patient_records (db : DB) (patient_id : Nat)
    (skip : Nat := 0) (limit : Nat := 100) : List SDAIRecord :=
  ((sortByMeasurementDateDesc
      (db.records.filter (fun r => r.patient_id == patient_id))).drop skip).take limit

/-- `SDAIService.get_doctor_records`. -/
def get_doctor_records (db : DB) (doctor_id : Nat)
    (skip : Nat := 0) (limit : Nat := 100) : List SDAIRecord :=
  ((sortByCreatedAtDesc
      (db.records.filter (fun r => r.doctor_id == doctor_id))).drop skip).take limit

/-- Return shape of `SDAIService.get_patient_statistics`. -/
structure SDAIStats where
  record_count : Nat
  avg_sdai_score : Rat
  min_sdai_score : Rat
  max_sdai_score : Rat
  latest_record : Option SDAIRecord
  deriving DecidableEq, Repr

/-- `SDAIService.get_patient_statistics`: count first; on zero return
the all-zero result (no aggregate query, hence no division); else
aggregate avg/min/max of `sdai_score` and the most recent record. -/
def get_patient_statistics (db : DB) (patient_id : Nat) : SDAIStats :=
  let rs := db.records.filter (fun r => r.patient_id == patient_id)
  if rs.length == 0 then
    { record_count := 0, avg_sdai_score := 0, min_sdai_score := 0,
      max_sdai_score := 0, latest_record := none }
  else
    let scores := rs.map (fun r => r.sdai_score)
    { record_count := rs.length
      avg_sdai_score := scores.sum / (rs.length : Rat)
      min_sdai_score := scores.foldl (fun a b => if b < a then b else a) (scores.headD 0)
      max_sdai_score := scores.foldl (fun a b => if a < b then b else a) (scores.headD 0)
      latest_record := (sortByMeasurementDateDesc rs).head? }

/-- Python truthiness of an optional integer filter argument
(`if doctor_id:` skips the filter for `None` and for `0`). -/
def truthyNat : Option Nat → Bool
  | none => false
  | some n => n != 0

/-- `SDAIService.search_records`: conjunction of the optional filters
(`doctor_id`/`patient_id` by truthiness, dates by truthiness — a date is
never falsy, so by presence — and score bounds by `is not None`),
ordered by descending measurement date, then offset/limit. -/
def search_records (db : DB) (doctor_id patient_id : Option Nat)
    (start_date end_date : Option Int) (min_sdai max_sdai : Option Rat)
    (skip : Nat := 0) (limit : Nat := 100) : List SDAIRecord :=
  let keep : SDAIRecord → Bool := fun r =>
    (!truthyNat doctor_id || doctor_id.getD 0 == r.doctor_id) &&
    (!truthyNat patient_id || patient_id.getD 0 == r.patient_id) &&
    (match start_date with | none => true | some d => d ≤ r.measurement_date) &&
    (match end_date with | none => true | some d => r.measurement_date ≤ d) &&
    (match min_sdai with | none => true | some m => m ≤ r.sdai_score) &&
    (match max_sdai with | none => true | some m => r.sdai_score ≤ m)
  ((sortByMeasurementDateDesc (db.records.filter keep)).drop skip).take limit

end SDAIService

/-! ### `app/services/doctor_patient_service.py` -/

namespace DoctorPatientService

/-- `DoctorPatientService.add_patient_to_doctor`: the doctor end must be
an existing active medical user, the patient end an existing active
non-medical user, and the pair must not already be linked; then the link
row is inserted. -/
def add_patient_to_doctor (db : DB) (doctor_id : Nat)
    (patient_data : DoctorPatientCreate) : Except SvcError (DB × DoctorPatient) :=
  match db.users.find? (fun u => u.id == doctor_id && u.is_medical && u.is_active) with
  | none => .error .doctorNotFoundOrInactive
  | some _ =>
    match db.users.find?
        (fun u => u.id == patient_data.patient_id && !u.is_medical && u.is_active) with
    | none => .error .patientNotFoundInactiveOrMedical
    | some _ =>
      match db.links.find?
          (fun l => l.doctor_id == doctor_id && l.patient_id == patient_data.patient_id) with
      | some _ => .error .pairAlreadyLinked
      | none =>
        let db_relation : DoctorPatient :=
          { id := db.nextLinkId
            doctor_id := doctor_id
            patient_id := patient_data.patient_id
            created_at := db.now }
        .ok ({ db with links := db.links ++ [db_relation],
                       nextLinkId := db.nextLinkId + 1 }, db_relation)

/-- `DoctorPatientService.get_doctor_patients`: active users joined
through the doctor's links, ordered by full name. -/
def get_doctor_patients (db : DB) (doctor_id : Nat) : List User :=
  (db.users.filter (fun u =>
      u.is_active &&
      db.links.any (fun l => l.doctor_id == doctor_id && l.patient_id == u.id))).mergeSort
    (fun a b => decide (a.full_name.getD "" ≤ b.full_name.getD ""))

end DoctorPatientService

/-! ### `app/api/endpoints/sdai.py`

Each endpoint function takes the already-authenticated caller (the
`User` produced by the `get_current_user` dependency: token decoded,
user looked up, active) plus the store, and returns either the HTTP
failure raised or the result (with the new store for mutating
endpoints).  FastAPI resolves dependencies before the handler body runs,
so the clinician gate is applied first. -/

/-- Modelled from the spec: `get_current_medical_user` is imported by
`app/api/endpoints/sdai.py` from `app.api.dependencies` but is absent
from the source tree; per §4.3 it builds on the authenticated user and
"requires the medical flag (403 otherwise)" — the "clinician-only"
gate. -/
def get_current_medical_user (current_user : User) :
    Except HTTPException User :=
  if current_user.is_medical then .ok current_user
  else .error ⟨403, "not a medical user"⟩

/-- `POST /api/sdai/records` (`create_sdai_record`): clinician gate,
then `SDAIService.create_record` with the caller as doctor; the
handler catches only `ValueError` (mapped to HTTP 400) — the
`TypeError` from the duplicated keyword argument escapes it and
surfaces as the framework's unhandled-exception 500. -/
def create_sdai_record (db : DB) (caller : User)
    (record_data : SDAIRecordCreate) : Except HTTPException (DB × SDAIRecord) :=
  match get_current_medical_user caller with
  | .error e => .error e
  | .ok current_user =>
    match SDAIService.create_record db record_data current_user.id with
    | .ok res => .ok res
    | .error (.valueError _) => .error ⟨400, "bad request"⟩
    | .error (.typeErrorMultipleValues _) => .error ⟨500, "internal server error"⟩

/-- `GET /api/sdai/records/{id}` (`get_sdai_record`): any authenticated
user; 404 when absent; then unless the caller is a superuser, a medical
caller must be the authoring doctor and a non-medical caller must be the
record's patient, else 403. -/
def get_sdai_record (db : DB) (caller : User) (record_id : Nat) :
    Except HTTPException SDAIRecord :=
  match SDAIService.get_record db record_id with
  | none => .error ⟨404, "record not found"⟩
  | some record =>
    if !caller.is_superuser then
      if caller.is_medical then
        if record.doctor_id != caller.id then .error ⟨403, "no access to this record"⟩
        else .ok record
      else
        if record.patient_id != caller.id then .error ⟨403, "no access to this record"⟩
        else .ok record
    else .ok record

/-- `PUT /api/sdai/records/{id}` (`update_sdai_record`): clinician gate,
404 when absent, 403 unless authoring doctor or superuser, then
`SDAIService.update_record`. -/
def update_sdai_record (db : DB) (caller : User) (record_id : Nat)
    (record_data : SDAIRecordUpdate) : Except HTTPException (DB × SDAIRecord) :=
  match get_current_medical_user caller with
  | .error e => .error e
  | .ok current_user =>
    match SDAIService.get_record db record_id with
    | none => .error ⟨404, "record not found"⟩
    | some record =>
      if record.doctor_id != current_user.id && !current_user.is_superuser then
        .error ⟨403, "no right to update this record"⟩
      else
        match SDAIService.update_record db record_id record_data with
        | none => .error ⟨404, "record not found"⟩
        | some res => .ok res

/-- `DELETE /api/sdai/records/{id}` (`delete_sdai_record`): clinician
gate, 404 when absent, 403 unless authoring doctor or superuser, then
`SDAIService.delete_record` (a `False` outcome is re-reported 404). -/
def delete_sdai_record (db : DB) (caller : User) (record_id : Nat) :
    Except HTTPException (DB × Unit) :=
  match get_current_medical_user caller with
  | .error e => .error e
  | .ok current_user =>
    match SDAIService.get_record db record_id with
    | none => .error ⟨404, "record not found"⟩
    | some record =>
      if record.doctor_id != current_user.id && !current_user.is_superuser then
        .error ⟨403, "no right to delete this record"⟩
      else
        match SDAIService.delete_record db record_id with
        | (db', true) => .ok (db', ())
        | (_, false) => .error ⟨404, "record not found"⟩

/-- Return shape of `GET /api/sdai/patients`. -/
structure PatientWithRecords where
  patient : User
  records : List SDAIRecord
  last_record : Option SDAIRecord
  deriving DecidableEq, Repr

/-- `GET /api/sdai/patients` (`get_doctor_patients_with_records`):
clinician gate, then each linked patient with up to 10 of their records
and the most recent one. -/
def get_doctor_patients_with_records (db : DB) (caller : User) :
    Except HTTPException (List PatientWithRecords) :=
  match get_current_medical_user caller with
  | .error e => .error e
  | .ok current_user =>
    let patients := DoctorPatientService.get_doctor_patients db current_user.id
    .ok (patients.map (fun patient =>
      let records := SDAIService.get_patient_records db patient.id 0 10
      { patient := patient, records := records, last_record := records.head? }))

/-- `POST /api/sdai/patients` (`add_patient`): clinician gate, then
`DoctorPatientService.add_patient_to_doctor` with the caller as doctor;
`ValueError` becomes HTTP 400. -/
def add_patient (db : DB) (caller : User)
    (patient_data : DoctorPatientCreate) : Except HTTPException (DB × DoctorPatient) :=
  match get_current_medical_user caller with
  | .error e => .error e
  | .ok current_user =>
    match DoctorPatientService.add_patient_to_doctor db current_user.id patient_data with
    | .ok res => .ok res
    | .error _ => .error ⟨400, "bad request"⟩

/-- `GET /api/sdai/search` (`search_sdai_records`): clinician gate, then
`SDAIService.search_records` always filtered by the caller's own id as
doctor. -/
def search_sdai_records (db : DB) (caller : User)
    (patient_id : Option Nat) (start_date end_date : Option Int)
    (min_sdai max_sdai : Option Rat) (skip limit : Nat) :
    Except HTTPException (List SDAIRecord) :=
  match get_current_medical_user caller with
  | .error e => .error e
  | .ok current_user =>
    .ok (SDAIService.search_records db (some current_user.id) patient_id
          start_date end_date min_sdai max_sdai skip limit)

/-- `csv` or `json`, the validated `format` query parameter. -/
inductive ExportFormat where
  | csv
  | json
  deriving DecidableEq, Repr

/-- `GET /api/sdai/export` (`export_sdai_data`): clinician gate, then the
caller's own records in the date range, capped at 10000 rows.  The
row-serialisation glue (CSV text / JSON field list) is not modelled; the
result carries the format and the exported records. -/
def export_sdai_data (db : DB) (caller : User) (format : ExportFormat)
    (start_date end_date : Option Int) :
    Except HTTPException (ExportFormat × List SDAIRecord) :=
  match get_current_medical_user caller with
  | .error e => .error e
  | .ok current_user =>
    .ok (format,
      SDAIService.search_records db (some current_user.id) none
        start_date end_date none none 0 10000)

/-- The claimed frame condition of a partial update: identity and
authorship fields and `created_at` survive, each request field is copied
exactly when present and kept when absent, the score is the SDAI formula
of the resulting inputs, the update timestamp is bumped, and nothing
else in the store changes but the one record. -/
def updateFrameHolds (db : DB) (rid : Nat) (upd : SDAIRecordUpdate)
    (old : SDAIRecord) (db' : DB) (r : SDAIRecord) : Prop :=
  r.id = old.id ∧ r.patient_id = old.patient_id ∧ r.doctor_id = old.doctor_id ∧
  r.created_at = old.created_at ∧
  (upd.tender_joint_count = none → r.tender_joint_count = old.tender_joint_count) ∧
  (∀ v, upd.tender_joint_count = some v → r.tender_joint_count = v) ∧
  (upd.swollen_joint_count = none → r.swollen_joint_count = old.swollen_joint_count) ∧
  (∀ v, upd.swollen_joint_count = some v → r.swollen_joint_count = v) ∧
  (upd.doctor_activity_assessment = none →
    r.doctor_activity_assessment = old.doctor_activity_assessment) ∧
  (∀ v, upd.doctor_activity_assessment = some v → r.doctor_activity_assessment = v) ∧
  (upd.patient_activity_assessment = none →
    r.patient_activity_assessment = old.patient_activity_assessment) ∧
  (∀ v, upd.patient_activity_assessment = some v → r.patient_activity_assessment = v) ∧
  (upd.crp = none → r.crp = old.crp) ∧
  (∀ v, upd.crp = some v → r.crp = v) ∧
  (upd.measurement_date = none → r.measurement_date = old.measurement_date) ∧
  (∀ v, upd.measurement_date = some v → r.measurement_date = v) ∧
  (upd.notes = none → r.notes = old.notes) ∧
  (∀ v, upd.notes = some v → r.notes = some v) ∧
  r.sdai_score = (r.tender_joint_count : Rat) + (r.swollen_joint_count : Rat) +
    r.doctor_activity_assessment / 10 + r.patient_activity_assessment / 10 +
    r.crp * 10 ∧
  r.updated_at = some db.now ∧
  db'.users = db.users ∧ db'.links = db.links ∧
  db'.records = db.records.map (fun x => if x.id == rid then r else x)

/-! ### Concrete fixtures (used by witnesses and counterexamples) -/

/-- Fixture: an active clinician, id 1. -/
def docUser : User :=
  { id := 1, email := "doc@example.com", username := "doc"
    full_name := some "Doc D", hashed_password := pwd_context_hash [100]
    is_active := true, is_superuser := false, is_medical := true
    created_at := 0, updated_at := none }

/-- Fixture: an active non-medical patient, id 2. -/
def patUser : User :=
  { id := 2, email := "pat@example.com", username := "pat"
    full_name := some "Pat P", hashed_password := pwd_context_hash [112]
    is_active := true, is_superuser := false, is_medical := false
    created_at := 0, updated_at := none }

/-- Fixture: a second active clinician, id 3, author of no record. -/
def otherDoc : User :=
  { id := 3, email := "doc2@example.com", username := "doc2"
    full_name := some "Doc E", hashed_password := pwd_context_hash [101]
    is_active := true, is_superuser := false, is_medical := true
    created_at := 0, updated_at := none }

/-- Fixture: store with one clinician and one patient, nothing else. -/
def db0 : DB :=
  { users := [docUser, patUser], links := [], records := []
    nextUserId := 3, nextLinkId := 1, nextRecordId := 1, now := 100 }

/-- Fixture: the spec's worked example request (crp = 1.2). -/
def rdEx : SDAIRecordCreate :=
  { patient_id := 2, tender_joint_count := 5, swollen_joint_count := 3
    doctor_activity_assessment := 40, patient_activity_assessment := 60
    crp := 6/5, measurement_date := 50, notes := none }

/-- Fixture: a stored row with the example's five inputs and the score
the formula gives them (30); used to exercise the read/update/delete
paths, which operate on whatever rows the table holds. -/
def recEx : SDAIRecord :=
  { id := 1, patient_id := 2, doctor_id := 1
    tender_joint_count := 5, swollen_joint_count := 3
    doctor_activity_assessment := 40, patient_activity_assessment := 60
    crp := 6/5, sdai_score := 30, measurement_date := 50
    created_at := 100, updated_at := none, notes := none }

/-- Fixture: `db0` with the example record present in the store. -/
def db1 : DB := { db0 with records := [recEx], nextRecordId := 2 }

/-- Fixture: the body updating only `crp` to 2.0. -/
def updEx : SDAIRecordUpdate := { crp := some 2 }

/-- Fixture: `recEx` after `updEx` (score recomputed to 38). -/
def recEx2 : SDAIRecord :=
  { recEx with crp := 2, sdai_score := 38, updated_at := some 100 }

/-- Fixture: `db1` after the example update. -/
def db2 : DB := { db1 with records := [recEx2] }

/-- Fixture: a registration body that asks for the medical flag. -/
def udMed : UserCreate :=
  { email := "med@example.com", username := "meduser", full_name := none
    password := [112, 97, 115, 115, 119, 100], is_medical := true }

/-- Fixture: the user `create_user db0 udMed` inserts. -/
def u3c : User :=
  { id := 3, email := "med@example.com", username := "meduser"
    full_name := none
    hashed_password := pwd_context_hash [112, 97, 115, 115, 119, 100]
    is_active := true, is_superuser := false, is_medical := false
    created_at := 100, updated_at := none }

/-- Fixture: `db0` after registering `udMed`. -/
def db3c : DB := { db0 with users := db0.users ++ [u3c], nextUserId := 4 }

/-- Fixture: a 73-code-point password of `a`s — 73 UTF-8 bytes. -/
def pwC6 : List Nat := List.replicate 73 97

/-- Fixture: the `UserCreate` parsed from a registration with `pwC6`. -/
def udC6 : UserCreate :=
  { email := "new@example.com", username := "newuser", full_name := none
    password := validate_password_length pwC6, is_medical := false }

/-- Fixture: an existing link between clinician 1 and patient 2. -/
def linkEx : DoctorPatient :=
  { id := 1, doctor_id := 1, patient_id := 2, created_at := 100 }

/-- Fixture: `db0` with the doctor–patient pair (1, 2) already linked. -/
def dbLink : DB := { db0 with links := [linkEx], nextLinkId := 2 }

/-! ## Helper lemmas -/

theorem DB.after_error {ε α : Type} (db : DB) (res : Except ε (DB × α))
    (e : ε) (h : res = .error e) : db.after res = db := by
  subst h; rfl

theorem utf8ByteLength_cons (c : Nat) (cs : List Nat) :
    utf8ByteLength (c :: cs) = utf8Len c + utf8ByteLength cs := by
  simp [utf8ByteLength]

theorem utf8ByteLength_takeUtf8Bytes_le :
    ∀ (cps : List Nat) (budget : Nat),
      utf8ByteLength (takeUtf8Bytes budget cps) ≤ budget := by
  intro cps
  induction cps with
  | nil => intro budget; simp [takeUtf8Bytes, utf8ByteLength]
  | cons c cs ih =>
    intro budget
    unfold takeUtf8Bytes
    split
    · next hle =>
      rw [utf8ByteLength_cons]
      have := ih (budget - utf8Len c)
      omega
    · simp [utf8ByteLength]

theorem takeUtf8Bytes_append :
    ∀ (cps : List Nat) (budget : Nat),
      ∃ rest, cps = takeUtf8Bytes budget cps ++ rest := by
  intro cps
  induction cps with
  | nil => intro budget; exact ⟨[], rfl⟩
  | cons c cs ih =>
    intro budget
    unfold takeUtf8Bytes
    split
    · obtain ⟨rest, hrest⟩ := ih (budget - utf8Len c)
      exact ⟨rest, by rw [List.cons_append, ← hrest]⟩
    · exact ⟨c :: cs, rfl⟩

theorem update_record_isSome (db : DB) (rid : Nat) (upd : SDAIRecordUpdate)
    (r : SDAIRecord) (h : SDAIService.get_record db rid = some r) :
    ∃ res, SDAIService.update_record db rid upd = some res := by
  unfold SDAIService.update_record
  rw [h]
  exact ⟨_, rfl⟩

theorem delete_record_true (db : DB) (rid : Nat) (r : SDAIRecord)
    (h : SDAIService.get_record db rid = some r) :
    ∃ db', SDAIService.delete_record db rid = (db', true) := by
  unfold SDAIService.delete_record
  rw [h]
  exact ⟨_, rfl⟩

theorem update_record_example_eq :
    SDAIService.update_record db1 1 updEx = some (db2, recEx2) := by
  simp [SDAIService.update_record, SDAIService.get_record, SDAIRecord.calculate_sdai, List.find?,
    db1, db2, updEx, recEx, recEx2, db0]
  norm_num

theorem get_record_example_eq : SDAIService.get_record db1 1 = some recEx := by
  simp [SDAIService.get_record, List.find?, db1, db0, recEx]

theorem create_user_example_eq :
    AuthService.create_user db0 udMed = .ok (db3c, u3c) := by
  simp [AuthService.create_user, AuthService.get_user_by_email, AuthService.get_user_by_username,
    AuthService.get_password_hash, List.find?, db0, db3c, udMed, u3c, docUser, patUser]

/-! ## Claim theorems -/

/-- Claim C1 (code bug): the claim — and the spec — say creation stores
`sdai_score` equal to the formula on the request's inputs, but the
source's row construction (`sdai_service.py` lines 36–40) passes
`measurement_date` twice (once inside `**record_data.dict()`, once as
an explicit keyword), so every create raises
`TypeError: got multiple values for keyword argument` before the score
is computed: no create ever succeeds, and at the spec's worked example
(tender 5, swollen 3, assessments 40/60, crp 1.2) the call raises
instead of storing score 30. -/
theorem C1_create_raises_typeerror :
    (∀ (db : DB) (rd : SDAIRecordCreate) (did : Nat),
        ∃ e, SDAIService.create_record db rd did = .error e) ∧
    SDAIService.create_record db0 rdEx 1
      = .error (.typeErrorMultipleValues "measurement_date") := by
  constructor
  · intro db rd did
    unfold SDAIService.create_record
    split
    · exact ⟨_, rfl⟩
    · split
      · exact ⟨_, rfl⟩
      · exact ⟨_, rfl⟩
  · rfl

/-- Claim C3 counterexample: registering with `is_medical = true` still
creates a user whose medical flag is `false` — `create_user` never
passes the field, so the column default applies. -/
theorem C3_counterexample :
    udMed.is_medical = true ∧
    AuthService.create_user db0 udMed = .ok (db3c, u3c) ∧
    u3c.is_medical = false :=
  ⟨rfl, create_user_example_eq, rfl⟩

/-- Claim C3 (amended): for every registration request, the created
user's medical flag is `false` regardless of the `is_medical` field
supplied in the body. -/
theorem C3_flag_ignored :
    ∀ (db : DB) (ud : UserCreate) (db' : DB) (u : User),
      AuthService.create_user db ud = .ok (db', u) → u.is_medical = false := by
  intro db ud db' u h
  unfold AuthService.create_user at h
  split at h
  · exact absurd h (by simp)
  · split at h
    · exact absurd h (by simp)
    · simp only [Except.ok.injEq, Prod.mk.injEq] at h
      obtain ⟨-, hu⟩ := h
      subst hu
      rfl

/-- Claim C3 witness: the amended claim at the concrete registration. -/
theorem C3_witness :
    AuthService.create_user db0 udMed = .ok (db3c, u3c) ∧ u3c.is_medical = false :=
  ⟨create_user_example_eq, C3_flag_ignored db0 udMed db3c u3c create_user_example_eq⟩

/-- Claim C8: statistics for a patient with zero records is count 0 with
all-zero aggregates and no latest record; the aggregate (and its
division) is never evaluated, so no error can arise. -/
theorem C8_empty_statistics :
    ∀ (db : DB) (pid : Nat),
      db.records.filter (fun r => r.patient_id == pid) = [] →
      SDAIService.get_patient_statistics db pid =
        { record_count := 0, avg_sdai_score := 0, min_sdai_score := 0,
          max_sdai_score := 0, latest_record := none } := by
  intro db pid h
  simp [SDAIService.get_patient_statistics, h]

/-- Claim C8 witness: the empty store statistics at patient 2. -/
theorem C8_witness :
    SDAIService.get_patient_statistics db0 2 =
      { record_count := 0, avg_sdai_score := 0, min_sdai_score := 0,
        max_sdai_score := 0, latest_record := none } :=
  C8_empty_statistics db0 2 (by simp [db0])

/-- Claim C9: a partial update keeps every omitted field (including
`patient_id`, `doctor_id`, `created_at`), copies exactly the supplied
fields, recomputes `sdai_score`, bumps `updated_at`, and leaves every
other row of the store unchanged. -/
theorem C9_partial_update_frame :
    ∀ (db : DB) (rid : Nat) (upd : SDAIRecordUpdate) (old : SDAIRecord)
      (db' : DB) (r : SDAIRecord),
      SDAIService.get_record db rid = some old →
      SDAIService.update_record db rid upd = some (db', r) →
      updateFrameHolds db rid upd old db' r := by
  intro db rid upd old db' r h1 h2
  unfold SDAIService.update_record at h2
  rw [h1] at h2
  simp only [Option.some.injEq, Prod.mk.injEq] at h2
  obtain ⟨hdb, hr⟩ := h2
  subst hdb
  subst hr
  refine ⟨rfl, rfl, rfl, rfl, ?_, ?_, ?_, ?_, ?_, ?_, ?_, ?_, ?_, ?_, ?_, ?_, ?_, ?_,
          rfl, rfl, rfl, rfl, rfl⟩ <;>
    first
      | (intro h; simp [h])
      | (intro v hv; simp [hv])

/-- Claim C9 witness: the crp-only update on the example record. -/
theorem C9_witness : updateFrameHolds db1 1 updEx recEx db2 recEx2 :=
  C9_partial_update_frame db1 1 updEx recEx db2 recEx2 get_record_example_eq
    update_record_example_eq

/-- Claim C2: every clinician-only operation — create record, update
record, delete record, list patients, add patient link, search, export —
fails with 403 and leaves the store unchanged when the authenticated
caller lacks the medical flag; a caller with the flag passes the gate.
(`get_current_medical_user` is modelled from the spec, being absent from
the source tree.) -/
theorem C2_clinician_gate :
    ∀ (db : DB) (caller : User),
      (caller.is_medical = false →
        (∀ rd, ∃ e, create_sdai_record db caller rd = .error e ∧ e.status = 403 ∧
          db.after (create_sdai_record db caller rd) = db) ∧
        (∀ rid upd, ∃ e, update_sdai_record db caller rid upd = .error e ∧
          e.status = 403 ∧ db.after (update_sdai_record db caller rid upd) = db) ∧
        (∀ rid, ∃ e, delete_sdai_record db caller rid = .error e ∧ e.status = 403 ∧
          db.after (delete_sdai_record db caller rid) = db) ∧
        (∃ e, get_doctor_patients_with_records db caller = .error e ∧ e.status = 403) ∧
        (∀ pd, ∃ e, add_patient db caller pd = .error e ∧ e.status = 403 ∧
          db.after (add_patient db caller pd) = db) ∧
        (∀ pid sd ed mn mx skip limit,
          ∃ e, search_sdai_records db caller pid sd ed mn mx skip limit = .error e ∧
            e.status = 403) ∧
        (∀ fmt sd ed, ∃ e, export_sdai_data db caller fmt sd ed = .error e ∧
          e.status = 403)) ∧
      (caller.is_medical = true → get_current_medical_user caller = .ok caller) := by
  intro db caller
  constructor
  · intro hmed
    have hgate : get_current_medical_user caller = .error ⟨403, "not a medical user"⟩ := by
      unfold get_current_medical_user
      rw [hmed]
      rfl
    refine ⟨?_, ?_, ?_, ?_, ?_, ?_, ?_⟩
    · intro rd
      have h : create_sdai_record db caller rd = .error ⟨403, "not a medical user"⟩ := by
        unfold create_sdai_record
        rw [hgate]
      exact ⟨_, h, rfl, DB.after_error db _ _ h⟩
    · intro rid upd
      have h : update_sdai_record db caller rid upd
          = .error ⟨403, "not a medical user"⟩ := by
        unfold update_sdai_record
        rw [hgate]
      exact ⟨_, h, rfl, DB.after_error db _ _ h⟩
    · intro rid
      have h : delete_sdai_record db caller rid = .error ⟨403, "not a medical user"⟩ := by
        unfold delete_sdai_record
        rw [hgate]
      exact ⟨_, h, rfl, DB.after_error db _ _ h⟩
    · have h : get_doctor_patients_with_records db caller
          = .error ⟨403, "not a medical user"⟩ := by
        unfold get_doctor_patients_with_records
        rw [hgate]
      exact ⟨_, h, rfl⟩
    · intro pd
      have h : add_patient db caller pd = .error ⟨403, "not a medical user"⟩ := by
        unfold add_patient
        rw [hgate]
      exact ⟨_, h, rfl, DB.after_error db _ _ h⟩
    · intro pid sd ed mn mx skip limit
      have h : search_sdai_records db caller pid sd ed mn mx skip limit
          = .error ⟨403, "not a medical user"⟩ := by
        unfold search_sdai_records
        rw [hgate]
      exact ⟨_, h, rfl⟩
    · intro fmt sd ed
      have h : export_sdai_data db caller fmt sd ed
          = .error ⟨403, "not a medical user"⟩ := by
        unfold export_sdai_data
        rw [hgate]
      exact ⟨_, h, rfl⟩
  · intro hmed
    unfold get_current_medical_user
    rw [hmed]
    rfl

/-- Claim C2 witness: the patient caller is rejected with 403 on record
creation with no state change, while the clinician passes the gate. -/
theorem C2_witness :
    (∃ e, create_sdai_record db0 patUser rdEx = .error e ∧ e.status = 403 ∧
      db0.after (create_sdai_record db0 patUser rdEx) = db0) ∧
    get_current_medical_user docUser = .ok docUser :=
  ⟨((C2_clinician_gate db0 patUser).1 rfl).1 rdEx,
   (C2_clinician_gate db0 docUser).2 rfl⟩

/-- Claim C4 counterexample: on a malformed stored hash (a string in no
supported hash format), `verify_password` propagates passlib's
`UnknownHashError` instead of returning `false`. -/
theorem C4_counterexample :
    AuthService.verify_password [112, 119] "not-a-hash" = .error .unknownHash ∧
    AuthService.verify_password [112, 119] "not-a-hash" ≠ .ok false := by
  constructor
  · decide
  · decide

/-- Claim C4 (amended): `verify_password` returns a boolean for every
stored hash in a supported format; on a malformed stored hash it raises
`UnknownHashError` (a `ValueError`) rather than returning `false` —
the source adds no exception handling around `pwd_context.verify`. -/
theorem C4_verify_behaviour :
    ∀ (plain : List Nat) (h : String),
      (identifyHash h ≠ none → ∃ b, AuthService.verify_password plain h = .ok b) ∧
      (identifyHash h = none →
        AuthService.verify_password plain h = .error .unknownHash) := by
  intro plain h
  constructor
  · intro hne
    unfold AuthService.verify_password pwd_context_verify
    cases hid : identifyHash h with
    | none => exact absurd hid hne
    | some s => cases s <;> exact ⟨_, rfl⟩
  · intro hn
    unfold AuthService.verify_password pwd_context_verify
    rw [hn]

/-- Claim C4 witness: a well-formed hash verifies to a boolean; the
malformed hash `"zzz"` raises. -/
theorem C4_witness :
    (∃ b, AuthService.verify_password [112] (pwd_context_hash [112]) = .ok b) ∧
    AuthService.verify_password [112] "zzz" = .error .unknownHash :=
  ⟨(C4_verify_behaviour [112] (pwd_context_hash [112])).1 (by decide),
   (C4_verify_behaviour [112] "zzz").2 (by decide)⟩

/-- Claim C5 counterexample: with no record stored at all, a non-medical
caller's update of record id 1 is answered 403 (the clinician gate runs
before the handler body), not 404 — so "404 if and only if the record is
absent" fails as stated. -/
theorem C5_counterexample :
    SDAIService.get_record db0 1 = none ∧
    update_sdai_record db0 patUser 1 {} = .error ⟨403, "not a medical user"⟩ := by
  exact ⟨rfl, rfl⟩

/-- Claim C5 (amended): for an existing record, a caller that is neither
the authoring doctor nor (for reads) the patient nor a superuser gets
403 on read/update/delete; a 404 is returned only when no record with
the requested id exists; conversely an absent id yields 404 on reads for
every caller, and on update/delete for callers with the medical flag —
a non-medical caller is stopped 403 by the clinician gate before the
404 check. -/
theorem C5_record_access :
    ∀ (db : DB) (caller : User) (rid : Nat) (upd : SDAIRecordUpdate),
      (∀ record, SDAIService.get_record db rid = some record →
        caller.is_superuser = false →
        caller.id ≠ record.doctor_id → caller.id ≠ record.patient_id →
        (∃ e, get_sdai_record db caller rid = .error e ∧ e.status = 403) ∧
        (∃ e, update_sdai_record db caller rid upd = .error e ∧ e.status = 403) ∧
        (∃ e, delete_sdai_record db caller rid = .error e ∧ e.status = 403)) ∧
      (∀ e, get_sdai_record db caller rid = .error e → e.status = 404 →
        SDAIService.get_record db rid = none) ∧
      (∀ e, update_sdai_record db caller rid upd = .error e → e.status = 404 →
        SDAIService.get_record db rid = none) ∧
      (∀ e, delete_sdai_record db caller rid = .error e → e.status = 404 →
        SDAIService.get_record db rid = none) ∧
      (SDAIService.get_record db rid = none →
        (∃ e, get_sdai_record db caller rid = .error e ∧ e.status = 404) ∧
        (caller.is_medical = true →
          (∃ e, update_sdai_record db caller rid upd = .error e ∧ e.status = 404) ∧
          (∃ e, delete_sdai_record db caller rid = .error e ∧ e.status = 404))) := by
  intro db caller rid upd
  refine ⟨?_, ?_, ?_, ?_, ?_⟩
  · intro record hrec hsup hd hp
    refine ⟨?_, ?_, ?_⟩
    · refine ⟨⟨403, "no access to this record"⟩, ?_, rfl⟩
      unfold get_sdai_record
      rw [hrec]
      cases hm : caller.is_medical <;>
        simp [hsup, hm, Ne.symm hd, Ne.symm hp]
    · cases hm : caller.is_medical with
      | false =>
        refine ⟨⟨403, "not a medical user"⟩, ?_, rfl⟩
        unfold update_sdai_record get_current_medical_user
        rw [hm]
        rfl
      | true =>
        refine ⟨⟨403, "no right to update this record"⟩, ?_, rfl⟩
        unfold update_sdai_record get_current_medical_user
        simp [hm, hrec, hsup, Ne.symm hd]
    · cases hm : caller.is_medical with
      | false =>
        refine ⟨⟨403, "not a medical user"⟩, ?_, rfl⟩
        unfold delete_sdai_record get_current_medical_user
        rw [hm]
        rfl
      | true =>
        refine ⟨⟨403, "no right to delete this record"⟩, ?_, rfl⟩
        unfold delete_sdai_record get_current_medical_user
        simp [hm, hrec, hsup, Ne.symm hd]
  · intro e he h404
    cases hg : SDAIService.get_record db rid with
    | none => rfl
    | some r =>
      exfalso
      unfold get_sdai_record at he
      rw [hg] at he
      cases hsup : caller.is_superuser <;>
        cases hm : caller.is_medical <;>
          by_cases hbd : r.doctor_id = caller.id <;>
            by_cases hbp : r.patient_id = caller.id <;>
              simp [hsup, hm, hbd, hbp] at he <;>
                (subst he; simp at h404)
  · intro e he h404
    cases hg : SDAIService.get_record db rid with
    | none => rfl
    | some r =>
      exfalso
      obtain ⟨res, hres⟩ := update_record_isSome db rid upd r hg
      unfold update_sdai_record get_current_medical_user at he
      cases hm : caller.is_medical <;>
        by_cases hbd : r.doctor_id = caller.id <;>
          cases hsup : caller.is_superuser <;>
            simp [hm, hbd, hsup, hg, hres] at he <;>
              (subst he; simp at h404)
  · intro e he h404
    cases hg : SDAIService.get_record db rid with
    | none => rfl
    | some r =>
      exfalso
      obtain ⟨db', hdel⟩ := delete_record_true db rid r hg
      unfold delete_sdai_record get_current_medical_user at he
      cases hm : caller.is_medical <;>
        by_cases hbd : r.doctor_id = caller.id <;>
          cases hsup : caller.is_superuser <;>
            simp [hm, hbd, hsup, hg, hdel] at he <;>
              (subst he; simp at h404)
  · intro hnone
    refine ⟨⟨⟨404, "record not found"⟩, ?_, rfl⟩, ?_⟩
    · unfold get_sdai_record
      rw [hnone]
    · intro hm
      constructor
      · refine ⟨⟨404, "record not found"⟩, ?_, rfl⟩
        unfold update_sdai_record get_current_medical_user
        rw [hm]
        simp only [if_true]
        rw [hnone]
      · refine ⟨⟨404, "record not found"⟩, ?_, rfl⟩
        unfold delete_sdai_record get_current_medical_user
        rw [hm]
        simp only [if_true]
        rw [hnone]

/-- Claim C5 witness: clinician 3 (not the author) gets 403 on
read/update/delete of the existing record 1, and 404 on the absent
record 99. -/
theorem C5_witness :
    ((∃ e, get_sdai_record db1 otherDoc 1 = .error e ∧ e.status = 403) ∧
     (∃ e, update_sdai_record db1 otherDoc 1 {} = .error e ∧ e.status = 403) ∧
     (∃ e, delete_sdai_record db1 otherDoc 1 = .error e ∧ e.status = 403)) ∧
    (∃ e, get_sdai_record db1 otherDoc 99 = .error e ∧ e.status = 404) :=
  ⟨(C5_record_access db1 otherDoc 1 {}).1 recEx get_record_example_eq rfl
      (by decide) (by decide),
   ((C5_record_access db1 otherDoc 99 {}).2.2.2.2 (by rfl)).1⟩

/-- Claim C6: a registration whose password exceeds 72 UTF-8 bytes
succeeds (no length error, given fresh email/username); the parsed
password is silently truncated to the longest head fitting in its first
72 bytes, and the stored hash is the hash of that truncation, not of
the full input. -/
theorem C6_password_truncation :
    ∀ (email username : String) (full_name : Option String) (pw : List Nat)
      (med : Bool) (ud : UserCreate) (db : DB),
      UserCreate.ofRequest email username full_name pw med = some ud →
      72 < utf8ByteLength pw →
      AuthService.get_user_by_email db email = none →
      AuthService.get_user_by_username db username = none →
      ∃ db' u, AuthService.create_user db ud = .ok (db', u) ∧
        ud.password = takeUtf8Bytes 72 pw ∧
        (∃ rest, pw = ud.password ++ rest) ∧
        utf8ByteLength ud.password ≤ 72 ∧
        u.hashed_password = AuthService.get_password_hash (takeUtf8Bytes 72 pw) ∧
        ud.password ≠ pw := by
  intro email username full_name pw med ud db hparse hlong hem hun
  unfold UserCreate.ofRequest at hparse
  split at hparse
  · exact absurd hparse (by simp)
  · simp only [Option.some.injEq] at hparse
    subst hparse
    have hval : validate_password_length pw = takeUtf8Bytes 72 pw := by
      unfold validate_password_length
      rw [if_pos hlong]
    unfold AuthService.create_user
    simp only
    rw [hem, hun]
    refine ⟨_, _, rfl, ?_, ?_, ?_, ?_, ?_⟩
    · exact hval
    · obtain ⟨rest, hrest⟩ := takeUtf8Bytes_append pw 72
      exact ⟨rest, by rw [hval]; exact hrest⟩
    · simp only [hval]
      exact utf8ByteLength_takeUtf8Bytes_le pw 72
    · unfold AuthService.get_password_hash
      simp only [hval]
    · intro heq
      have hlen := congrArg utf8ByteLength heq
      simp only [hval] at hlen
      have := utf8ByteLength_takeUtf8Bytes_le pw 72
      omega

/-- Claim C6 witness: a 73-byte password of `a`s is truncated to its
first 72 bytes and the stored hash is of the truncation. -/
theorem C6_witness :
    ∃ db' u, AuthService.create_user db0 udC6 = .ok (db', u) ∧
      udC6.password = takeUtf8Bytes 72 pwC6 ∧
      (∃ rest, pwC6 = udC6.password ++ rest) ∧
      utf8ByteLength udC6.password ≤ 72 ∧
      u.hashed_password = AuthService.get_password_hash (takeUtf8Bytes 72 pwC6) ∧
      udC6.password ≠ pwC6 :=
  C6_password_truncation "new@example.com" "newuser" none pwC6 false udC6 db0
    (by decide) (by decide) (by decide) (by decide)

/-- Claim C7: linking fails — with no link row inserted — whenever the
doctor end is not an existing active medical user, or the patient end is
not an existing active non-medical user (covers a medical or inactive
"patient"), or the exact (doctor, patient) pair is already linked. -/
theorem C7_link_failures :
    ∀ (db : DB) (did : Nat) (pd : DoctorPatientCreate),
      ((∀ u ∈ db.users, ¬(u.id = did ∧ u.is_medical = true ∧ u.is_active = true)) ∨
       (∀ u ∈ db.users,
          ¬(u.id = pd.patient_id ∧ u.is_medical = false ∧ u.is_active = true)) ∨
       (∃ l ∈ db.links, l.doctor_id = did ∧ l.patient_id = pd.patient_id)) →
      ∃ e, DoctorPatientService.add_patient_to_doctor db did pd = .error e ∧
        db.after (DoctorPatientService.add_patient_to_doctor db did pd) = db := by
  intro db did pd hcond
  suffices h : ∃ e, DoctorPatientService.add_patient_to_doctor db did pd = .error e by
    obtain ⟨e, he⟩ := h
    exact ⟨e, he, DB.after_error db _ e he⟩
  unfold DoctorPatientService.add_patient_to_doctor
  cases hdoc : db.users.find? (fun u => u.id == did && u.is_medical && u.is_active) with
  | none => exact ⟨_, rfl⟩
  | some d =>
    cases hpat : db.users.find?
        (fun u => u.id == pd.patient_id && !u.is_medical && u.is_active) with
    | none => exact ⟨_, rfl⟩
    | some p =>
      cases hdup : db.links.find?
          (fun l => l.doctor_id == did && l.patient_id == pd.patient_id) with
      | some l => exact ⟨_, rfl⟩
      | none =>
        exfalso
        rcases hcond with hc | hc | hc
        · have hd := List.find?_some hdoc
          have hmem := List.mem_of_find?_eq_some hdoc
          simp only [Bool.and_eq_true, beq_iff_eq] at hd
          exact hc d hmem ⟨hd.1.1, hd.1.2, hd.2⟩
        · have hp := List.find?_some hpat
          have hmem := List.mem_of_find?_eq_some hpat
          simp only [Bool.and_eq_true, beq_iff_eq, Bool.not_eq_true'] at hp
          exact hc p hmem ⟨hp.1.1, hp.1.2, hp.2⟩
        · obtain ⟨l, hl, h1, h2⟩ := hc
          have hs : (db.links.find?
              (fun l => l.doctor_id == did && l.patient_id == pd.patient_id)).isSome :=
            List.find?_isSome.mpr ⟨l, hl, by simp [h1, h2]⟩
          rw [hdup] at hs
          simp at hs

/-- Claim C7 witness: re-linking the already linked pair (1, 2) fails
and leaves the store unchanged. -/
theorem C7_witness :
    ∃ e, DoctorPatientService.add_patient_to_doctor dbLink 1 ⟨2⟩ = .error e ∧
      dbLink.after (DoctorPatientService.add_patient_to_doctor dbLink 1 ⟨2⟩) = dbLink :=
  C7_link_failures dbLink 1 ⟨2⟩
    (.inr (.inr ⟨linkEx, by simp [dbLink, db0, linkEx], rfl, rfl⟩))

/-- Claim C10: every user created through registration has
`is_active = true` and `is_superuser = false`, whatever the request
contained (the schema does not even carry those fields). -/
theorem C10_registration_defaults :
    ∀ (db : DB) (ud : UserCreate) (db' : DB) (u : User),
      AuthService.create_user db ud = .ok (db', u) →
      u.is_active = true ∧ u.is_superuser = false := by
  intro db ud db' u h
  unfold AuthService.create_user at h
  split at h
  · exact absurd h (by simp)
  · split at h
    · exact absurd h (by simp)
    · simp only [Except.ok.injEq, Prod.mk.injEq] at h
      obtain ⟨-, hu⟩ := h
      subst hu
      exact ⟨rfl, rfl⟩

/-- Claim C10 witness: the concrete registration of `udMed`. -/
theorem C10_witness :
    AuthService.create_user db0 udMed = .ok (db3c, u3c) ∧
    u3c.is_active = true ∧ u3c.is_superuser = false :=
  ⟨create_user_example_eq, C10_registration_defaults db0 udMed db3c u3c create_user_example_eq⟩

end MedCalc
